import Mathlib

set_option autoImplicit false

/-!
# Verification of the AndVPN mobile connection-orchestration layer

Shallow embedding of the connection orchestrator of the AndVPN mobile
client:

* `EnhancedNativeVPNManager` (src/services/enhanced-native-vpn.ts):
  connect/disconnect lifecycle, retry with exponential backoff, log ring
  buffer, status pub-sub, configuration persistence via AsyncStorage.
* `VPNService` (two variants): device provisioning and caching, status
  pub-sub.

Conventions of the embedding:

* JavaScript numbers used as counters/sizes/timestamps become `Nat`.
* `Promise` rejections / thrown errors become `Except` values; an
  `async` method that never rejects becomes a total function.
* Asynchronous environment interactions (network probe, the native
  tunnel steps, the provisioning API) are passed in explicitly as an
  environment record, one field per external call site.
* Object spread `{ ...a, ...b }` on status records becomes a Lean
  structure update that writes exactly the fields `b` lists and keeps
  the rest, which is the precise spread-merge semantics for the literal
  partials appearing in the source.
* `AsyncStorage` is modelled as a single `Option` cell for the one key
  the manager uses (`"@vpn_config"`); the model takes the success path
  of the storage try/catch blocks (best-effort persistence).
* Wall-clock values (`new Date()`, `Date.now()`) and the random
  quantities of the simulated telemetry enter as explicit parameters.
-/

/-- Tunnel protocol of the native manager (`"wireguard" | "openvpn"`). -/
inductive Protocol
  | wireguard
  | openvpn
deriving DecidableEq, Repr

/-- `VPN_PROTOCOLS` keys used by `VPNService` (`"WIREGUARD" | "OPENVPN"`). -/
inductive VPNProtocol
  | WIREGUARD
  | OPENVPN
deriving DecidableEq, Repr

/-- Log level of `VPNConnectionLog`. -/
inductive LogLevel
  | info
  | warning
  | error
deriving DecidableEq, Repr

/-- `VPNConnectionLog` entry (timestamp modelled as `Nat`). -/
structure VPNConnectionLog where
  timestamp : Nat
  level : LogLevel
  message : String
  protocol : Option Protocol
deriving DecidableEq, Repr

/-- Connection quality enum of `NativeVPNStatus`. -/
inductive Quality
  | excellent
  | good
  | fair
  | poor
deriving DecidableEq, Repr

/-- `NativeVPNStatus` of the enhanced native manager.  `bytesReceived`
and `bytesSent` are required numeric fields in the source interface;
the other annotated-optional fields are `Option`s. -/
structure NativeVPNStatus where
  isConnected : Bool
  connectionTime : Option Nat
  bytesReceived : Nat
  bytesSent : Nat
  serverIP : Option String
  localIP : Option String
  lastHandshake : Option Nat
  connectionQuality : Option Quality
  latency : Option Nat
  downloadSpeed : Option Nat
  uploadSpeed : Option Nat
deriving DecidableEq, Repr

/-- The initial `connectionStatus` value of `EnhancedNativeVPNManager`. -/
def initialNativeStatus : NativeVPNStatus :=
  { isConnected := false
    connectionTime := none
    bytesReceived := 0
    bytesSent := 0
    serverIP := none
    localIP := none
    lastHandshake := none
    connectionQuality := some .excellent
    latency := some 0
    downloadSpeed := some 0
    uploadSpeed := some 0 }

namespace EnhancedNativeVPNManager

/-- `maxReconnectAttempts` field of `EnhancedNativeVPNManager`. -/
def maxReconnectAttempts : Nat := 3

/-! ## Retry loop (`connectWithRetry`)

The per-attempt protocol connect sequence
(`connectWireGuardEnhanced` / `connectOpenVPNEnhanced`) is abstracted
as an oracle `driver : Nat → Except Unit Bool` giving, for each attempt
number, whether that attempt's connect sequence returned `true`,
returned `false`, or threw.  The loop body logs, invokes the sequence,
and — only when the attempt returned `false` and further attempts
remain — sleeps `Math.pow(2, attempt) * 1000` milliseconds.  A thrown
attempt is caught by the per-attempt `catch` and the loop continues
without sleeping (the backoff `setTimeout` sits inside the `try`). -/

/-- Observable events of the retry loop: an invocation of the
protocol connect sequence for a given attempt number, and a backoff
sleep of a given number of milliseconds. -/
inductive RetryEvent
  | drvConnect (attempt : Nat)
  | sleep (ms : Nat)
deriving DecidableEq, Repr

/-- One pass of the `for (let attempt = 1; attempt <= maxReconnectAttempts; ...)`
loop of `connectWithRetry`, recursing on the number of remaining
iterations.  Returns the event trace together with the boolean result. -/
def connectWithRetryGo (driver : Nat → Except Unit Bool) (maxA : Nat) :
    Nat → Nat → List RetryEvent × Bool
  | _, 0 => ([], false)
  | attempt, remaining + 1 =>
    match driver attempt with
    | .ok true => ([.drvConnect attempt], true)
    | .ok false =>
      let rest := connectWithRetryGo driver maxA (attempt + 1) remaining
      if attempt < maxA then
        (.drvConnect attempt :: .sleep (2 ^ attempt * 1000) :: rest.1, rest.2)
      else
        (.drvConnect attempt :: rest.1, rest.2)
    | .error _ =>
      let rest := connectWithRetryGo driver maxA (attempt + 1) remaining
      (.drvConnect attempt :: rest.1, rest.2)

/-- `connectWithRetry`: run the attempt loop from attempt `1` with
`maxReconnectAttempts` iterations available. -/
def connectWithRetry (driver : Nat → Except Unit Bool) :
    List RetryEvent × Bool :=
  connectWithRetryGo driver maxReconnectAttempts 1 maxReconnectAttempts

/-! ## Log ring buffer (`log`)

`log` unshifts the new entry onto `connectionLogs` and, when the length
exceeds 100, slices the array back down to its first 100 elements
(most-recent-first order, so the oldest entries fall off the end). -/

/-- One `log(...)` call's effect on the `connectionLogs` array. -/
def pushLog (logs : List VPNConnectionLog) (e : VPNConnectionLog) :
    List VPNConnectionLog :=
  let l := e :: logs
  if l.length > 100 then l.take 100 else l

/-- Effect of a sequence of `log(...)` calls, oldest emission first. -/
def pushLogAll (logs : List VPNConnectionLog) (es : List VPNConnectionLog) :
    List VPNConnectionLog :=
  es.foldl pushLog logs

end EnhancedNativeVPNManager

namespace EnhancedNativeVPNManager

/-- A single `log` call keeps the buffer within the cap of 100. -/
theorem pushLog_length_le (logs : List VPNConnectionLog)
    (e : VPNConnectionLog) (h : logs.length ≤ 100) :
    (pushLog logs e).length ≤ 100 := by
  simp only [pushLog]
  split
  · simp [List.length_take]
  · next hl =>
    simp only [List.length_cons, gt_iff_lt, not_lt] at hl ⊢
    omega

/-- Given an in-cap buffer, `log` acts as cons-then-truncate. -/
theorem pushLog_eq_take (logs : List VPNConnectionLog)
    (e : VPNConnectionLog) (_h : logs.length ≤ 100) :
    pushLog logs e = (e :: logs).take 100 := by
  unfold pushLog
  by_cases hl : (e :: logs).length > 100
  · simp [hl]
  · rw [if_neg hl, List.take_of_length_le (by omega)]

/-- Truncating the right summand before appending does not change a
truncated append. -/
theorem take_append_take (xs ys : List VPNConnectionLog) (n : Nat) :
    (xs ++ ys.take n).take n = (xs ++ ys).take n := by
  rw [List.take_append_eq_append_take, List.take_append_eq_append_take,
    List.take_take, Nat.min_eq_left (Nat.sub_le n xs.length)]

/-- Closed form for a run of `log` calls starting from an in-cap
buffer: the result is the reversed emission sequence prepended to the
old buffer, truncated to 100. -/
theorem pushLogAll_eq_take (es : List VPNConnectionLog) :
    ∀ logs : List VPNConnectionLog, logs.length ≤ 100 →
      pushLogAll logs es = (es.reverse ++ logs).take 100 := by
  induction es with
  | nil =>
    intro logs h
    simp [pushLogAll, List.take_of_length_le h]
  | cons e es ih =>
    intro logs h
    have h1 : (pushLog logs e).length ≤ 100 := pushLog_length_le logs e h
    have : pushLogAll logs (e :: es) = pushLogAll (pushLog logs e) es := rfl
    rw [this, ih _ h1, pushLog_eq_take logs e h, take_append_take,
      List.reverse_cons, List.append_assoc]
    rfl

end EnhancedNativeVPNManager

/-- C1: with a protocol connect sequence that always fails (returns
`false` on every attempt), `connectWithRetry` invokes the sequence
exactly `maxReconnectAttempts = 3` times, resolves to `false`, and the
sleeps between consecutive attempts are `1000 * 2^1 = 2000` ms after
attempt 1 and `1000 * 2^2 = 4000` ms after attempt 2, with no sleep
after the final attempt. -/
theorem connect_retry_three_attempts_exponential_backoff
    (driver : Nat → Except Unit Bool)
    (h : ∀ n, driver n = Except.ok false) :
    EnhancedNativeVPNManager.maxReconnectAttempts = 3 ∧
    EnhancedNativeVPNManager.connectWithRetry driver =
      ([EnhancedNativeVPNManager.RetryEvent.drvConnect 1,
        EnhancedNativeVPNManager.RetryEvent.sleep 2000,
        EnhancedNativeVPNManager.RetryEvent.drvConnect 2,
        EnhancedNativeVPNManager.RetryEvent.sleep 4000,
        EnhancedNativeVPNManager.RetryEvent.drvConnect 3], false) := by
  refine ⟨rfl, ?_⟩
  simp [EnhancedNativeVPNManager.connectWithRetry,
    EnhancedNativeVPNManager.connectWithRetryGo,
    EnhancedNativeVPNManager.maxReconnectAttempts, h]

/-- Witness for C1 at the concrete always-failing driver. -/
theorem connect_retry_three_attempts_exponential_backoff_witness :
    EnhancedNativeVPNManager.connectWithRetry (fun _ => Except.ok false) =
      ([EnhancedNativeVPNManager.RetryEvent.drvConnect 1,
        EnhancedNativeVPNManager.RetryEvent.sleep 2000,
        EnhancedNativeVPNManager.RetryEvent.drvConnect 2,
        EnhancedNativeVPNManager.RetryEvent.sleep 4000,
        EnhancedNativeVPNManager.RetryEvent.drvConnect 3], false) :=
  (connect_retry_three_attempts_exponential_backoff
    (fun _ => Except.ok false) (fun _ => rfl)).2

/-- C5: for any emission sequence of more than 100 log entries, the
ring buffer stays within its cap of 100 after every step, and the final
buffer is exactly the most recent 100 entries in most-recent-first
order (the oldest entries having been evicted). -/
theorem log_ring_buffer_cap (es : List VPNConnectionLog)
    (h : 100 < es.length) :
    (∀ k, (EnhancedNativeVPNManager.pushLogAll [] (es.take k)).length ≤ 100) ∧
    (EnhancedNativeVPNManager.pushLogAll [] es).length = 100 ∧
    EnhancedNativeVPNManager.pushLogAll [] es = es.reverse.take 100 := by
  have hall : ∀ xs : List VPNConnectionLog,
      EnhancedNativeVPNManager.pushLogAll [] xs = xs.reverse.take 100 := by
    intro xs
    rw [EnhancedNativeVPNManager.pushLogAll_eq_take xs [] (by simp),
      List.append_nil]
  refine ⟨fun k => ?_, ?_, hall es⟩
  · rw [hall]
    simp [List.length_take]
  · rw [hall]
    simp [List.length_take]
    omega

/-! ## `VPNService` status record and telemetry (claims about byte counters) -/

/-- Status enum of the `VPNService` variants
(`"ACTIVE" | "CONNECTING" | "DISCONNECTED" | "BLOCKED" | "ERROR"`). -/
inductive VPNStatusEnum
  | ACTIVE
  | CONNECTING
  | DISCONNECTED
  | BLOCKED
  | ERROR
deriving DecidableEq, Repr

/-- `VPNStatus` interface of the `VPNService` variants; every field but
`status` is annotated optional in the source. -/
structure VPNStatus where
  status : VPNStatusEnum
  serverId : Option String
  protocol : Option VPNProtocol
  connectedAt : Option Nat
  bytesReceived : Option Nat
  bytesSent : Option Nat
  lastHandshake : Option Nat
deriving DecidableEq, Repr

namespace VPNService

/-- Initial `connectionStatus = { status: "DISCONNECTED" }` of
`VPNService` (all optional fields absent). -/
def initialStatus : VPNStatus :=
  { status := .DISCONNECTED
    serverId := none
    protocol := none
    connectedAt := none
    bytesReceived := none
    bytesSent := none
    lastHandshake := none }

/-- The `updateStatus({ status: "DISCONNECTED" })` call performed by
`VPNService.disconnect`: the spread merge writes only the `status`
field and keeps every other field of the previous status. -/
def disconnectStatusUpdate (s : VPNStatus) : VPNStatus :=
  { s with status := .DISCONNECTED }

end VPNService

namespace EnhancedNativeVPNManager

/-- The body of the 1-second `startDataTracking` interval.  The two
randomized increments `downloadBytes` and `uploadBytes` are
`Math.floor` of positive quantities in the source, hence arbitrary
naturals here; `now` stands for `new Date()`. -/
def dataTrackingTick (s : NativeVPNStatus)
    (now downloadBytes uploadBytes : Nat) : NativeVPNStatus :=
  if s.isConnected then
    { s with
      bytesReceived := s.bytesReceived + downloadBytes
      bytesSent := s.bytesSent + uploadBytes
      lastHandshake := some now
      downloadSpeed := some (downloadBytes * 8)
      uploadSpeed := some (uploadBytes * 8) }
  else s

/-- The `updateStatus` performed by the enhanced manager's
`disconnect`: clears connection metadata and zeroes speeds/latency but
does not touch the byte counters. -/
def disconnectStatusUpdate (s : NativeVPNStatus) : NativeVPNStatus :=
  { s with
    isConnected := false
    connectionTime := none
    serverIP := none
    localIP := none
    latency := some 0
    downloadSpeed := some 0
    uploadSpeed := some 0 }

end EnhancedNativeVPNManager

/-- A concrete active `VPNService` status with byte counters present. -/
def activeStatusWithBytes : VPNStatus :=
  { status := .ACTIVE
    serverId := some "us-east-1"
    protocol := some .WIREGUARD
    connectedAt := some 0
    bytesReceived := some 5
    bytesSent := some 3
    lastHandshake := some 0 }

/-- C2 counterexample: `VPNService.disconnect` transitions status to
`DISCONNECTED` via `updateStatus({ status: "DISCONNECTED" })`, whose
spread merge keeps the byte counters: starting from an active status
with `bytesReceived = 5`, the post-disconnect status is `DISCONNECTED`
yet both counters are still present — they are not reset to absent. -/
theorem bytes_not_reset_on_disconnect_counterexample :
    (VPNService.disconnectStatusUpdate activeStatusWithBytes).status =
      VPNStatusEnum.DISCONNECTED ∧
    (VPNService.disconnectStatusUpdate activeStatusWithBytes).bytesReceived =
      some 5 ∧
    (VPNService.disconnectStatusUpdate activeStatusWithBytes).bytesSent =
      some 3 := by
  decide

/-- C2 (amended): the byte counters are monotonically non-decreasing
under every telemetry tick of the enhanced manager, and on a
transition of the status to disconnected — whether through the
enhanced manager's `disconnect` status update or `VPNService`'s — the
byte counters retain their previous values rather than being reset. -/
theorem bytes_monotone_and_retained_on_disconnect :
    (∀ (s : NativeVPNStatus) (now dl ul : Nat),
      s.bytesReceived ≤
        (EnhancedNativeVPNManager.dataTrackingTick s now dl ul).bytesReceived ∧
      s.bytesSent ≤
        (EnhancedNativeVPNManager.dataTrackingTick s now dl ul).bytesSent) ∧
    (∀ s : NativeVPNStatus,
      (EnhancedNativeVPNManager.disconnectStatusUpdate s).bytesReceived =
        s.bytesReceived ∧
      (EnhancedNativeVPNManager.disconnectStatusUpdate s).bytesSent =
        s.bytesSent ∧
      (EnhancedNativeVPNManager.disconnectStatusUpdate s).isConnected =
        false) ∧
    (∀ s : VPNStatus,
      (VPNService.disconnectStatusUpdate s).bytesReceived = s.bytesReceived ∧
      (VPNService.disconnectStatusUpdate s).bytesSent = s.bytesSent ∧
      (VPNService.disconnectStatusUpdate s).status =
        VPNStatusEnum.DISCONNECTED) := by
  refine ⟨fun s now dl ul => ?_, fun s => ⟨rfl, rfl, rfl⟩,
    fun s => ⟨rfl, rfl, rfl⟩⟩
  unfold EnhancedNativeVPNManager.dataTrackingTick
  split <;> simp

/-- Concrete emission sequence of 101 log entries. -/
def c5Entries : List VPNConnectionLog :=
  (List.range 101).map (fun i => ⟨i, .info, "m", none⟩)

/-- Witness for C5 at a concrete 101-entry emission sequence. -/
theorem log_ring_buffer_cap_witness :
    100 < c5Entries.length ∧
    EnhancedNativeVPNManager.pushLogAll [] c5Entries =
      c5Entries.reverse.take 100 :=
  ⟨by decide, (log_ring_buffer_cap c5Entries (by decide)).2.2⟩

/-! ## Status pub-sub (claims C3, C4)

Both service variants keep a `statusListeners` array and a mutable
`connectionStatus`; `updateStatus` assigns the merged status and then
`forEach`-notifies every listener with the new value.  The pub-sub
state is modelled with listeners identified by numeric ids, and the
three operations produce, besides the next state, the list of
`(listener id, status delivered)` events they emit, in order. -/

/-- Listener-registry state shared by the pub-sub models: the ordered
`statusListeners` array (listener ids) and the current
`connectionStatus`. -/
structure PubSub (α : Type) where
  listeners : List Nat
  current : α
deriving Repr

/-- Operations a client can perform against the pub-sub surface:
register a callback, call the unsubscribe closure of a callback, or an
internal `updateStatus` applying a spread merge `f` to the current
status. -/
inductive PSOp (α : Type)
  | subscribe (id : Nat)
  | unsubscribe (id : Nat)
  | update (f : α → α)

/-- Events delivered to a given listener id, in order. -/
def eventsTo {α : Type} (id : Nat) (evs : List (Nat × α)) : List α :=
  (evs.filter (fun e => e.1 == id)).map Prod.snd

/-- Whether an operation is `subscribe id` for the given id. -/
def subscribesId {α : Type} (id : Nat) : PSOp α → Bool
  | .subscribe j => j == id
  | _ => false

/-- Whether an operation subscribes or unsubscribes the given id. -/
def touchesId {α : Type} (id : Nat) : PSOp α → Bool
  | .subscribe j => j == id
  | .unsubscribe j => j == id
  | .update _ => false

/-- The statuses produced by the `update` operations of a list, given
the current status: exactly the values a continuously registered
listener is notified with. -/
def updatesSeen {α : Type} (c : α) : List (PSOp α) → List α
  | [] => []
  | .update f :: ops => f c :: updatesSeen (f c) ops
  | .subscribe _ :: ops => updatesSeen c ops
  | .unsubscribe _ :: ops => updatesSeen c ops

namespace EnhancedNativeVPNManager

/-- `onStatusChange` of the enhanced manager: pushes the callback and
immediately invokes it with the current status. -/
def subscribeStep {α : Type} (s : PubSub α) (id : Nat) :
    PubSub α × List (Nat × α) :=
  ({ s with listeners := s.listeners ++ [id] }, [(id, s.current)])

/-- The unsubscribe closure returned by the enhanced manager's
`onStatusChange`: filters the callback out of `statusListeners`
(removing every occurrence). -/
def unsubscribeStep {α : Type} (s : PubSub α) (id : Nat) : PubSub α :=
  { s with listeners := s.listeners.filter (fun l => l ≠ id) }

/-- `updateStatus`: assign the merged status, then notify every
listener, in array order, with the new status. -/
def updateStatusStep {α : Type} (s : PubSub α) (f : α → α) :
    PubSub α × List (Nat × α) :=
  let s2 := { s with current := f s.current }
  (s2, s2.listeners.map (fun l => (l, s2.current)))

/-- One pub-sub operation of the enhanced manager. -/
def step {α : Type} (s : PubSub α) : PSOp α → PubSub α × List (Nat × α)
  | .subscribe id => subscribeStep s id
  | .unsubscribe id => (unsubscribeStep s id, [])
  | .update f => updateStatusStep s f

/-- Run a sequence of pub-sub operations, concatenating the delivered
events. -/
def run {α : Type} (s : PubSub α) :
    List (PSOp α) → PubSub α × List (Nat × α)
  | [] => (s, [])
  | op :: ops =>
    let r1 := step s op
    let r2 := run r1.1 ops
    (r2.1, r1.2 ++ r2.2)

end EnhancedNativeVPNManager

namespace VPNService

/-- `onStatusChange` of the basic `VPNService` variant: pushes the
callback and returns — there is no immediate invocation with the
current status. -/
def subscribeStep {α : Type} (s : PubSub α) (id : Nat) :
    PubSub α × List (Nat × α) :=
  ({ s with listeners := s.listeners ++ [id] }, [])

/-- The unsubscribe closure of `VPNService.onStatusChange`:
`indexOf` + `splice(index, 1)`, i.e. removal of the first occurrence
when present. -/
def unsubscribeStep {α : Type} (s : PubSub α) (id : Nat) : PubSub α :=
  { s with listeners := s.listeners.erase id }

/-- `VPNService.updateStatus`: assign the merged status, then notify
every listener with the new status. -/
def updateStatusStep {α : Type} (s : PubSub α) (f : α → α) :
    PubSub α × List (Nat × α) :=
  let s2 := { s with current := f s.current }
  (s2, s2.listeners.map (fun l => (l, s2.current)))

/-- One pub-sub operation of the basic `VPNService` variant. -/
def step {α : Type} (s : PubSub α) : PSOp α → PubSub α × List (Nat × α)
  | .subscribe id => subscribeStep s id
  | .unsubscribe id => (unsubscribeStep s id, [])
  | .update f => updateStatusStep s f

/-- Run a sequence of pub-sub operations of the basic variant. -/
def run {α : Type} (s : PubSub α) :
    List (PSOp α) → PubSub α × List (Nat × α)
  | [] => (s, [])
  | op :: ops =>
    let r1 := step s op
    let r2 := run r1.1 ops
    (r2.1, r1.2 ++ r2.2)

end VPNService

/-! ### Trace lemmas for the pub-sub models -/

/-- `eventsTo` distributes over event concatenation. -/
theorem eventsTo_append {α : Type} (id : Nat) (a b : List (Nat × α)) :
    eventsTo id (a ++ b) = eventsTo id a ++ eventsTo id b := by
  simp [eventsTo, List.filter_append]

/-- A notification broadcast delivers to `id` one copy of the status
per registration of `id` in the listener array. -/
theorem eventsTo_notify {α : Type} (id : Nat) (c : α) :
    ∀ l : List Nat,
      eventsTo id (l.map (fun x => (x, c))) = List.replicate (l.count id) c := by
  intro l
  induction l with
  | nil => rfl
  | cons x l ih =>
    by_cases hx : (x == id) = true
    · simp only [List.map_cons, eventsTo, List.filter_cons, hx, if_true,
        List.map_cons, List.count_cons, hx]
      simp only [eventsTo] at ih
      simp [ih, List.replicate_succ]
    · simp only [List.map_cons, eventsTo, List.filter_cons, hx,
        List.count_cons]
      simp only [eventsTo] at ih
      simp only [Bool.false_eq_true, if_false, ih, hx, Nat.add_zero]

namespace EnhancedNativeVPNManager

/-- An operation that is not `subscribe id` keeps an unregistered `id`
unregistered. -/
theorem step_not_registered {α : Type} (s : PubSub α) (id : Nat)
    (op : PSOp α) (hmem : id ∉ s.listeners)
    (hop : subscribesId id op = false) :
    id ∉ (step s op).1.listeners := by
  cases op with
  | subscribe j =>
    simp only [subscribesId, beq_eq_false_iff_ne] at hop
    simp only [step, subscribeStep, List.mem_append, List.mem_singleton]
    rintro (h | h)
    · exact hmem h
    · exact hop h.symm
  | unsubscribe j =>
    exact fun h => hmem (List.mem_of_mem_filter h)
  | update f =>
    exact hmem

/-- An operation emits no event to an unregistered `id` unless it is
`subscribe id`. -/
theorem step_silent {α : Type} (s : PubSub α) (id : Nat)
    (op : PSOp α) (hmem : id ∉ s.listeners)
    (hop : subscribesId id op = false) :
    eventsTo id (step s op).2 = [] := by
  cases op with
  | subscribe j =>
    simp only [subscribesId] at hop
    simp [step, subscribeStep, eventsTo, hop]
  | unsubscribe j => rfl
  | update f =>
    simp only [step, updateStatusStep, eventsTo_notify]
    rw [List.count_eq_zero.mpr hmem]
    rfl

/-- While `id` is unregistered and no operation subscribes it, a run
delivers nothing to `id` and leaves it unregistered. -/
theorem run_silent {α : Type} (ops : List (PSOp α)) :
    ∀ (s : PubSub α) (id : Nat), id ∉ s.listeners →
      (∀ op ∈ ops, subscribesId id op = false) →
      id ∉ (run s ops).1.listeners ∧ eventsTo id (run s ops).2 = [] := by
  induction ops with
  | nil => exact fun s id hmem _ => ⟨hmem, rfl⟩
  | cons op ops ih =>
    intro s id hmem hops
    have hop := hops op (by simp)
    have hrest : ∀ o ∈ ops, subscribesId id o = false :=
      fun o ho => hops o (by simp [ho])
    have h1 := step_not_registered s id op hmem hop
    have h2 := step_silent s id op hmem hop
    have ihr := ih (step s op).1 id h1 hrest
    refine ⟨ihr.1, ?_⟩
    show eventsTo id ((step s op).2 ++ (run (step s op).1 ops).2) = []
    rw [eventsTo_append, h2, ihr.2]
    rfl

/-- `run` splits over list append. -/
theorem run_append {α : Type} (xs ys : List (PSOp α)) :
    ∀ s : PubSub α,
      run s (xs ++ ys) =
        ((run (run s xs).1 ys).1, (run s xs).2 ++ (run (run s xs).1 ys).2) := by
  induction xs with
  | nil => intro s; simp [run]
  | cons x xs ih =>
    intro s
    simp only [List.cons_append, run, List.append_eq]
    rw [ih (step s x).1]
    simp [List.append_assoc]

end EnhancedNativeVPNManager

namespace EnhancedNativeVPNManager

/-- An operation that does not touch a uniquely registered `id` keeps
its registration count at one. -/
theorem step_count_one {α : Type} (s : PubSub α) (id : Nat)
    (op : PSOp α) (hc : s.listeners.count id = 1)
    (hop : touchesId id op = false) :
    (step s op).1.listeners.count id = 1 := by
  cases op with
  | subscribe j =>
    have hj : j ≠ id := by simpa [touchesId] using hop
    simp [step, subscribeStep, List.count_append, hc, List.count_cons, hj]
  | unsubscribe j =>
    have hj : j ≠ id := by simpa [touchesId] using hop
    simp only [step, unsubscribeStep]
    rw [List.count_filter (by simpa using Ne.symm hj)]
    exact hc
  | update f => exact hc

/-- While `id` is registered exactly once and no operation touches it,
a run delivers to `id` exactly the statuses produced by the update
operations, in order. -/
theorem run_registered {α : Type} (ops : List (PSOp α)) :
    ∀ (s : PubSub α) (id : Nat), s.listeners.count id = 1 →
      (∀ op ∈ ops, touchesId id op = false) →
      eventsTo id (run s ops).2 = updatesSeen s.current ops := by
  induction ops with
  | nil => intro s id _ _; rfl
  | cons op ops ih =>
    intro s id hc hops
    have hop := hops op (by simp)
    have hrest : ∀ o ∈ ops, touchesId id o = false :=
      fun o ho => hops o (by simp [ho])
    have hc2 := step_count_one s id op hc hop
    have ihr := ih (step s op).1 id hc2 hrest
    show eventsTo id ((step s op).2 ++ (run (step s op).1 ops).2) = _
    rw [eventsTo_append, ihr]
    cases op with
    | subscribe j =>
      have hj : (j == id) = false := by
        simpa [touchesId, beq_eq_false_iff_ne] using hop
      simp [step, subscribeStep, eventsTo, hj, updatesSeen]
    | unsubscribe j =>
      simp [step, unsubscribeStep, eventsTo, updatesSeen]
    | update f =>
      simp only [step, updateStatusStep, eventsTo_notify, hc,
        List.replicate_succ, List.replicate_zero, updatesSeen]
      rfl

end EnhancedNativeVPNManager

namespace VPNService

/-- Basic-variant analogue of listener preservation for an
unregistered `id`. -/
theorem service_step_not_registered {α : Type} (s : PubSub α) (id : Nat)
    (op : PSOp α) (hmem : id ∉ s.listeners)
    (hop : subscribesId id op = false) :
    id ∉ (step s op).1.listeners := by
  cases op with
  | subscribe j =>
    simp only [subscribesId, beq_eq_false_iff_ne] at hop
    simp only [step, subscribeStep, List.mem_append, List.mem_singleton]
    rintro (h | h)
    · exact hmem h
    · exact hop h.symm
  | unsubscribe j =>
    exact fun h => hmem (List.mem_of_mem_erase h)
  | update f =>
    exact hmem

/-- Basic-variant analogue of silence toward an unregistered `id`. -/
theorem service_step_silent {α : Type} (s : PubSub α) (id : Nat)
    (op : PSOp α) (hmem : id ∉ s.listeners)
    (_hop : subscribesId id op = false) :
    eventsTo id (step s op).2 = [] := by
  cases op with
  | subscribe j => rfl
  | unsubscribe j => rfl
  | update f =>
    simp only [step, updateStatusStep, eventsTo_notify]
    rw [List.count_eq_zero.mpr hmem]
    rfl

/-- While `id` is unregistered and no operation subscribes it, a
basic-variant run delivers nothing to `id`. -/
theorem service_run_silent {α : Type} (ops : List (PSOp α)) :
    ∀ (s : PubSub α) (id : Nat), id ∉ s.listeners →
      (∀ op ∈ ops, subscribesId id op = false) →
      id ∉ (run s ops).1.listeners ∧ eventsTo id (run s ops).2 = [] := by
  induction ops with
  | nil => exact fun s id hmem _ => ⟨hmem, rfl⟩
  | cons op ops ih =>
    intro s id hmem hops
    have hop := hops op (by simp)
    have hrest : ∀ o ∈ ops, subscribesId id o = false :=
      fun o ho => hops o (by simp [ho])
    have h1 := service_step_not_registered s id op hmem hop
    have h2 := service_step_silent s id op hmem hop
    have ihr := ih (step s op).1 id h1 hrest
    refine ⟨ihr.1, ?_⟩
    show eventsTo id ((step s op).2 ++ (run (step s op).1 ops).2) = []
    rw [eventsTo_append, h2, ihr.2]
    rfl

end VPNService

/-- C3 counterexample: in the basic `VPNService` variant,
`onStatusChange` pushes the callback and returns the unsubscribe
closure without ever invoking the callback — registering against the
current (disconnected) status delivers no immediate event, so the new
subscriber does not receive the current status upon subscribing. -/
theorem subscribe_no_replay_counterexample :
    (VPNService.step (PubSub.mk ([] : List Nat) VPNService.initialStatus)
        (PSOp.subscribe 0)).2 = [] ∧
    VPNService.initialStatus.status = VPNStatusEnum.DISCONNECTED :=
  ⟨rfl, rfl⟩

/-- C3 (amended, for the enhanced manager's `onStatusChange`, whose
replay behaviour the native-integrated `VPNService` variant shares):
for any operations `pre` before the registration of a fresh callback
`id` and any operations `post` after it that do not touch `id`, the
events delivered to `id` are exactly the status current at registration
time followed by the statuses of the updates in `post`, in order — in
particular nothing emitted strictly before registration reaches `id`.
The basic `VPNService` variant does not replay the current status on
registration (see the counterexample). -/
theorem subscribe_replay_last_then_updates
    (s : PubSub NativeVPNStatus)
    (pre post : List (PSOp NativeVPNStatus)) (id : Nat)
    (h0 : id ∉ s.listeners)
    (hpre : ∀ op ∈ pre, subscribesId id op = false)
    (hpost : ∀ op ∈ post, touchesId id op = false) :
    eventsTo id
        (EnhancedNativeVPNManager.run s
          (pre ++ PSOp.subscribe id :: post)).2 =
      (EnhancedNativeVPNManager.run s pre).1.current ::
        updatesSeen (EnhancedNativeVPNManager.run s pre).1.current post := by
  rw [EnhancedNativeVPNManager.run_append, eventsTo_append]
  have hsil := EnhancedNativeVPNManager.run_silent pre s id h0 hpre
  rw [hsil.2]
  have hc : ((EnhancedNativeVPNManager.run s pre).1.listeners ++ [id]).count id
      = 1 := by
    rw [List.count_append, List.count_eq_zero.mpr hsil.1]
    simp
  have hreg := EnhancedNativeVPNManager.run_registered post
    { (EnhancedNativeVPNManager.run s pre).1 with
      listeners := (EnhancedNativeVPNManager.run s pre).1.listeners ++ [id] }
    id hc hpost
  show [] ++ eventsTo id (EnhancedNativeVPNManager.run
    (EnhancedNativeVPNManager.run s pre).1 (PSOp.subscribe id :: post)).2 = _
  rw [List.nil_append]
  show eventsTo id
    ((EnhancedNativeVPNManager.step (EnhancedNativeVPNManager.run s pre).1
        (PSOp.subscribe id)).2 ++ _) = _
  rw [eventsTo_append]
  simp only [EnhancedNativeVPNManager.step,
    EnhancedNativeVPNManager.subscribeStep] at hreg ⊢
  rw [hreg]
  simp [eventsTo]

/-- Concrete status updates used by the pub-sub witnesses. -/
def witnessUpdatePre : NativeVPNStatus → NativeVPNStatus :=
  fun st => { st with isConnected := true }

/-- Second concrete status update used by the pub-sub witnesses. -/
def witnessUpdatePost : NativeVPNStatus → NativeVPNStatus :=
  fun st => { st with bytesReceived := 7 }

/-- Witness for C3 at a concrete trace: one update before
registration of listener 0, one update after. -/
theorem subscribe_replay_last_then_updates_witness :
    eventsTo 0
        (EnhancedNativeVPNManager.run
          (PubSub.mk ([] : List Nat) initialNativeStatus)
          ([PSOp.update witnessUpdatePre] ++ PSOp.subscribe 0 ::
            [PSOp.update witnessUpdatePost])).2 =
      (EnhancedNativeVPNManager.run
          (PubSub.mk ([] : List Nat) initialNativeStatus)
          [PSOp.update witnessUpdatePre]).1.current ::
        updatesSeen
          (EnhancedNativeVPNManager.run
            (PubSub.mk ([] : List Nat) initialNativeStatus)
            [PSOp.update witnessUpdatePre]).1.current
          [PSOp.update witnessUpdatePost] :=
  subscribe_replay_last_then_updates _ _ _ 0 (by simp)
    (by intro op hop; simp only [List.mem_singleton] at hop; subst hop; rfl)
    (by intro op hop; simp only [List.mem_singleton] at hop; subst hop; rfl)

/-- C4: once the unsubscribe closure for a callback registered at most
once has run, no later operation that does not re-register the callback
ever delivers an event to it — in both the enhanced manager
(filter-based removal) and the basic `VPNService` (splice-based
removal). -/
theorem unsubscribe_stops_delivery
    (s : PubSub VPNStatus) (id : Nat) (ops : List (PSOp VPNStatus))
    (hcount : s.listeners.count id ≤ 1)
    (hops : ∀ op ∈ ops, subscribesId id op = false) :
    eventsTo id (EnhancedNativeVPNManager.run
        (EnhancedNativeVPNManager.unsubscribeStep s id) ops).2 = [] ∧
    eventsTo id (VPNService.run
        (VPNService.unsubscribeStep s id) ops).2 = [] := by
  have h1 : id ∉ (EnhancedNativeVPNManager.unsubscribeStep s id).listeners := by
    simp [EnhancedNativeVPNManager.unsubscribeStep, List.mem_filter]
  have h2 : id ∉ (VPNService.unsubscribeStep s id).listeners := by
    have hz : ((s.listeners.erase id).count id) = 0 := by
      rw [List.count_erase_self]
      omega
    exact List.count_eq_zero.mp hz
  exact ⟨(EnhancedNativeVPNManager.run_silent ops _ id h1 hops).2,
    (VPNService.service_run_silent ops _ id h2 hops).2⟩

/-- Concrete status update used by the C4 witness. -/
def witnessActivate : VPNStatus → VPNStatus :=
  fun st => { st with status := VPNStatusEnum.ACTIVE }

/-- Witness for C4: listener 7 registered once, unsubscribed, then one
status update occurs; it receives nothing under either variant. -/
theorem unsubscribe_stops_delivery_witness :
    eventsTo 7 (EnhancedNativeVPNManager.run
        (EnhancedNativeVPNManager.unsubscribeStep
          (PubSub.mk [7] VPNService.initialStatus) 7)
        [PSOp.update witnessActivate]).2 = [] ∧
    eventsTo 7 (VPNService.run
        (VPNService.unsubscribeStep
          (PubSub.mk [7] VPNService.initialStatus) 7)
        [PSOp.update witnessActivate]).2 = [] :=
  unsubscribe_stops_delivery (PubSub.mk [7] VPNService.initialStatus) 7
    [PSOp.update witnessActivate] (by decide)
    (by intro op hop; simp only [List.mem_singleton] at hop; subst hop; rfl)

/-! ## Configuration persistence (claims C6, C7)

`NativeVPNConfig` is persisted with
`AsyncStorage.setItem("@vpn_config", JSON.stringify(config))` and read
back with `JSON.parse`.  JSON values are modelled by the `Json`
inductive; `JSON.stringify` of a config is the `encodeConfig` tree
(undefined optional fields are omitted, exactly as `JSON.stringify`
drops `undefined` properties), and `JSON.parse` composed with the
field accesses the config shape implies is `decodeConfig`.  The one
storage cell the manager uses is an `Option Json`. -/

/-- JSON value tree. -/
inductive Json
  | str (s : String)
  | num (n : Nat)
  | bool (b : Bool)
  | arr (xs : List Json)
  | obj (fields : List (String × Json))
deriving Repr

/-- `credentials` bundle of `NativeVPNConfig`; every field is optional
in the source interface. -/
structure Credentials where
  privateKey : Option String
  publicKey : Option String
  presharedKey : Option String
  certificate : Option String
  username : Option String
  password : Option String
  clientKey : Option String
  caCertificate : Option String
deriving DecidableEq, Repr

/-- `NativeVPNConfig` of the enhanced native manager. -/
structure NativeVPNConfig where
  serverEndpoint : String
  protocol : Protocol
  credentials : Credentials
  dns : Option (List String)
  allowedIPs : Option (List String)
  mtu : Option Nat
  keepAlive : Option Nat
  compression : Option Bool
  tlsAuth : Option String
deriving DecidableEq, Repr

/-- Serialize an optional string property (omitted when absent). -/
def strEntry (k : String) : Option String → List (String × Json)
  | none => []
  | some s => [(k, .str s)]

/-- Serialize an optional numeric property (omitted when absent). -/
def natEntry (k : String) : Option Nat → List (String × Json)
  | none => []
  | some n => [(k, .num n)]

/-- Serialize an optional boolean property (omitted when absent). -/
def boolEntry (k : String) : Option Bool → List (String × Json)
  | none => []
  | some b => [(k, .bool b)]

/-- Serialize an optional string-array property (omitted when absent). -/
def strListEntry (k : String) : Option (List String) → List (String × Json)
  | none => []
  | some xs => [(k, .arr (xs.map .str))]

/-- The protocol strings of `NativeVPNConfig.protocol`. -/
def protocolToString : Protocol → String
  | .wireguard => "wireguard"
  | .openvpn => "openvpn"

/-- Read a protocol back from its string form. -/
def protocolOfString (s : String) : Option Protocol :=
  if s = "wireguard" then some .wireguard
  else if s = "openvpn" then some .openvpn
  else none

/-- `JSON.stringify` of the credentials bundle. -/
def encodeCredentials (c : Credentials) : Json :=
  .obj (strEntry "privateKey" c.privateKey ++
    strEntry "publicKey" c.publicKey ++
    strEntry "presharedKey" c.presharedKey ++
    strEntry "certificate" c.certificate ++
    strEntry "username" c.username ++
    strEntry "password" c.password ++
    strEntry "clientKey" c.clientKey ++
    strEntry "caCertificate" c.caCertificate)

/-- `JSON.stringify` of a `NativeVPNConfig`. -/
def encodeConfig (c : NativeVPNConfig) : Json :=
  .obj ([("serverEndpoint", .str c.serverEndpoint),
    ("protocol", .str (protocolToString c.protocol)),
    ("credentials", encodeCredentials c.credentials)] ++
    strListEntry "dns" c.dns ++
    strListEntry "allowedIPs" c.allowedIPs ++
    natEntry "mtu" c.mtu ++
    natEntry "keepAlive" c.keepAlive ++
    boolEntry "compression" c.compression ++
    strEntry "tlsAuth" c.tlsAuth)

/-- Property lookup in a parsed JSON object. -/
def getField (fields : List (String × Json)) (k : String) : Option Json :=
  fields.lookup k

/-- A JSON value as a string, when it is one. -/
def jsonAsStr : Json → Option String
  | .str s => some s
  | _ => none

/-- A JSON value as a number, when it is one. -/
def jsonAsNat : Json → Option Nat
  | .num n => some n
  | _ => none

/-- A JSON value as a boolean, when it is one. -/
def jsonAsBool : Json → Option Bool
  | .bool b => some b
  | _ => none

/-- A JSON array of strings, read back as a string list. -/
def strArray : List Json → Option (List String)
  | [] => some []
  | .str s :: rest => (strArray rest).map (fun xs => s :: xs)
  | _ => none

/-- A JSON value as a string array, when it is one. -/
def jsonAsStrList : Json → Option (List String)
  | .arr xs => strArray xs
  | _ => none

/-- Read a string-valued property. -/
def getStr (fields : List (String × Json)) (k : String) : Option String :=
  (getField fields k).bind jsonAsStr

/-- Read a numeric property. -/
def getNat (fields : List (String × Json)) (k : String) : Option Nat :=
  (getField fields k).bind jsonAsNat

/-- Read a boolean property. -/
def getBool (fields : List (String × Json)) (k : String) : Option Bool :=
  (getField fields k).bind jsonAsBool

/-- Read a string-array property. -/
def getStrList (fields : List (String × Json)) (k : String) :
    Option (List String) :=
  (getField fields k).bind jsonAsStrList

/-- `JSON.parse` of a stored credentials object, shaped back into the
`credentials` bundle. -/
def decodeCredentials : Json → Option Credentials
  | .obj fields =>
    some { privateKey := getStr fields "privateKey"
           publicKey := getStr fields "publicKey"
           presharedKey := getStr fields "presharedKey"
           certificate := getStr fields "certificate"
           username := getStr fields "username"
           password := getStr fields "password"
           clientKey := getStr fields "clientKey"
           caCertificate := getStr fields "caCertificate" }
  | _ => none

/-- `JSON.parse` of a stored config, shaped back into `NativeVPNConfig`. -/
def decodeConfig : Json → Option NativeVPNConfig
  | .obj fields =>
    match getStr fields "serverEndpoint",
        (getStr fields "protocol").bind protocolOfString,
        (getField fields "credentials").bind decodeCredentials with
    | some se, some p, some cr =>
      some { serverEndpoint := se
             protocol := p
             credentials := cr
             dns := getStrList fields "dns"
             allowedIPs := getStrList fields "allowedIPs"
             mtu := getNat fields "mtu"
             keepAlive := getNat fields "keepAlive"
             compression := getBool fields "compression"
             tlsAuth := getStr fields "tlsAuth" }
    | _, _, _ => none
  | _ => none

/-- Reading back a serialized string array recovers it. -/
theorem strArray_map_str (xs : List String) :
    strArray (xs.map Json.str) = some xs := by
  induction xs with
  | nil => rfl
  | cons x xs ih => simp [strArray, ih]

/-- Lookup distributes over appended property blocks. -/
@[simp]
theorem lookup_append_fields (l₁ l₂ : List (String × Json)) (k : String) :
    (l₁ ++ l₂).lookup k = (l₁.lookup k).or (l₂.lookup k) := by
  induction l₁ with
  | nil => simp [List.lookup]
  | cons e l₁ ih =>
    by_cases h : (k == e.1) = true <;> simp [List.lookup, h, ih]

/-- Lookup in a serialized optional string property. -/
@[simp]
theorem lookup_strEntry (k k2 : String) (v : Option String) :
    (strEntry k v).lookup k2 =
      if k2 = k then v.map Json.str else none := by
  cases v with
  | none => by_cases h : k2 = k <;> simp [strEntry, List.lookup, h]
  | some s =>
    by_cases h : k2 = k
    · simp [strEntry, List.lookup, h]
    · simp [strEntry, List.lookup, h, beq_eq_false_iff_ne.mpr h]

/-- Lookup in a serialized optional numeric property. -/
@[simp]
theorem lookup_natEntry (k k2 : String) (v : Option Nat) :
    (natEntry k v).lookup k2 =
      if k2 = k then v.map Json.num else none := by
  cases v with
  | none => by_cases h : k2 = k <;> simp [natEntry, List.lookup, h]
  | some s =>
    by_cases h : k2 = k
    · simp [natEntry, List.lookup, h]
    · simp [natEntry, List.lookup, h, beq_eq_false_iff_ne.mpr h]

/-- Lookup in a serialized optional boolean property. -/
@[simp]
theorem lookup_boolEntry (k k2 : String) (v : Option Bool) :
    (boolEntry k v).lookup k2 =
      if k2 = k then v.map Json.bool else none := by
  cases v with
  | none => by_cases h : k2 = k <;> simp [boolEntry, List.lookup, h]
  | some s =>
    by_cases h : k2 = k
    · simp [boolEntry, List.lookup, h]
    · simp [boolEntry, List.lookup, h, beq_eq_false_iff_ne.mpr h]

/-- Lookup in a serialized optional string-array property. -/
@[simp]
theorem lookup_strListEntry (k k2 : String) (v : Option (List String)) :
    (strListEntry k v).lookup k2 =
      if k2 = k then v.map (fun xs => Json.arr (xs.map Json.str))
      else none := by
  cases v with
  | none => by_cases h : k2 = k <;> simp [strListEntry, List.lookup, h]
  | some s =>
    by_cases h : k2 = k
    · simp [strListEntry, List.lookup, h]
    · simp [strListEntry, List.lookup, h, beq_eq_false_iff_ne.mpr h]

/-- A serialized string property reads back as itself. -/
@[simp]
theorem bind_jsonAsStr (v : Option String) :
    (v.map Json.str).bind jsonAsStr = v := by
  cases v <;> rfl

/-- A serialized numeric property reads back as itself. -/
@[simp]
theorem bind_jsonAsNat (v : Option Nat) :
    (v.map Json.num).bind jsonAsNat = v := by
  cases v <;> rfl

/-- A serialized boolean property reads back as itself. -/
@[simp]
theorem bind_jsonAsBool (v : Option Bool) :
    (v.map Json.bool).bind jsonAsBool = v := by
  cases v <;> rfl

/-- A serialized string-array property reads back as itself. -/
@[simp]
theorem bind_jsonAsStrList (v : Option (List String)) :
    (v.map (fun xs => Json.arr (xs.map Json.str))).bind jsonAsStrList = v := by
  cases v with
  | none => rfl
  | some xs => simp [jsonAsStrList, strArray_map_str]

/-- `jsonAsStr` on a string value. -/
@[simp]
theorem jsonAsStr_str (s : String) : jsonAsStr (Json.str s) = some s := rfl

/-- The protocol strings decode back to the protocol. -/
@[simp]
theorem protocolOfString_protocolToString (p : Protocol) :
    protocolOfString (protocolToString p) = some p := by
  cases p <;> rfl

/-- The credentials bundle round-trips through serialization. -/
theorem decodeCredentials_encodeCredentials (c : Credentials) :
    decodeCredentials (encodeCredentials c) = some c := by
  simp [encodeCredentials, decodeCredentials, getStr, getField]

/-- A `NativeVPNConfig` round-trips through serialization. -/
theorem decodeConfig_encodeConfig (c : NativeVPNConfig) :
    decodeConfig (encodeConfig c) = some c := by
  simp [encodeConfig, decodeConfig, getStr, getNat, getBool, getStrList,
    getField, List.lookup, decodeCredentials_encodeCredentials]

namespace EnhancedNativeVPNManager

/-- `saveConfiguration`:
`AsyncStorage.setItem("@vpn_config", JSON.stringify(config))`, success
path of the try/catch. -/
def saveConfiguration (_store : Option Json) (c : NativeVPNConfig) :
    Option Json :=
  some (encodeConfig c)

/-- `loadSavedConfiguration`: `AsyncStorage.getItem("@vpn_config")`
followed by `JSON.parse`, success path; an absent key yields no saved
config. -/
def loadSavedConfiguration (store : Option Json) : Option NativeVPNConfig :=
  store.bind decodeConfig

/-- `clearSavedConfiguration`:
`AsyncStorage.removeItem("@vpn_config")`, success path. -/
def clearSavedConfiguration (_store : Option Json) : Option Json :=
  none

/-- The mutable fields of `EnhancedNativeVPNManager` that the
connect/disconnect lifecycle reads or writes, together with the
`AsyncStorage` cell.  The log buffer is modelled separately
(`pushLog`); `log(...)` calls touch nothing else, so they are not
threaded through this state. -/
structure ManagerState where
  connectionConfig : Option NativeVPNConfig
  connectionStatus : NativeVPNStatus
  reconnectAttempts : Nat
  monitoring : Bool
  storage : Option Json
deriving Repr

/-- External outcomes consumed by one `connect` call: the result of
`Network.getNetworkStateAsync().isConnected` (`.error` models a
rejected probe), the platform, the wall clock, the randomized latency,
and the tunnel-step outcome of each attempt (the simulated step
sequence of `connectWireGuardEnhanced` / `connectOpenVPNEnhanced`,
abstracted as in the retry-trace model). -/
structure Env where
  network : Except Unit Bool
  isIOS : Bool
  now : Nat
  latency : Nat
  driver : Nat → Except Unit Bool

/-- JavaScript truthiness test used by the credential validations
(`!x` is true for both `undefined` and the empty string). -/
def falsyStr : Option String → Bool
  | none => true
  | some s => s == ""

/-- Outcome of a single protocol connect sequence: the credential
validation throws (`.error`), otherwise the tunnel steps resolve to
the driver's outcome for this attempt. -/
def attemptResult (env : Env) (config : NativeVPNConfig) (attempt : Nat) :
    Except Unit Bool :=
  match config.protocol with
  | .wireguard =>
    if falsyStr config.credentials.privateKey ||
        falsyStr config.credentials.publicKey then
      .error ()
    else env.driver attempt
  | .openvpn =>
    if falsyStr config.credentials.certificate &&
        falsyStr config.credentials.username then
      .error ()
    else env.driver attempt

/-- The `updateStatus` performed on simulated connection success by
`connectWireGuardEnhanced` / `connectOpenVPNEnhanced`. -/
def successStatusUpdate (env : Env) (config : NativeVPNConfig)
    (st : NativeVPNStatus) : NativeVPNStatus :=
  match config.protocol with
  | .wireguard =>
    { st with
      isConnected := true
      connectionTime := some env.now
      serverIP := some ((config.serverEndpoint.splitOn ":").headD "")
      localIP := some (if env.isIOS then "10.0.0.2" else "10.0.0.3")
      bytesReceived := 0
      bytesSent := 0
      connectionQuality := some .excellent
      latency := some env.latency }
  | .openvpn =>
    { st with
      isConnected := true
      connectionTime := some env.now
      serverIP := some ((config.serverEndpoint.splitOn ":").headD "")
      localIP := some (if env.isIOS then "172.16.0.2" else "172.16.0.3")
      bytesReceived := 0
      bytesSent := 0
      connectionQuality := some .good
      latency := some env.latency }

/-- Apply the success status update to the manager state. -/
def applyConnectSuccess (env : Env) (config : NativeVPNConfig)
    (s : ManagerState) : ManagerState :=
  { s with
    connectionStatus := successStatusUpdate env config s.connectionStatus }

/-- State-level `connectWithRetry` loop: a successful attempt applies
its status update and stops; a failed or thrown attempt leaves the
state unchanged (logging and the backoff sleep are not state) and the
loop continues with the next attempt.  (The attempt/sleep schedule of
this loop is verified separately on the trace-level model.) -/
def connectWithRetryState (env : Env) (config : NativeVPNConfig) :
    ManagerState → Nat → Nat → ManagerState × Bool
  | s, _, 0 => (s, false)
  | s, attempt, remaining + 1 =>
    match attemptResult env config attempt with
    | .ok true => (applyConnectSuccess env config s, true)
    | .ok false => connectWithRetryState env config s (attempt + 1) remaining
    | .error _ => connectWithRetryState env config s (attempt + 1) remaining

/-- `disconnect`: stop monitoring, perform the (always-successful)
platform disconnection, apply the disconnect status update, clear the
in-memory and persisted configuration, and resolve `true`. -/
def disconnect (s : ManagerState) : ManagerState × Bool :=
  let s1 := { s with monitoring := false }
  let s2 := { s1 with
    connectionStatus := disconnectStatusUpdate s1.connectionStatus }
  let s3 := { s2 with
    connectionConfig := none
    storage := clearSavedConfiguration s2.storage }
  (s3, true)

/-- `connect`: pre-connection checks (network probe, auto-disconnect
of an existing session, platform permission checks that always pass),
then save the configuration, set the status to connecting, and run the
retry loop.  A rejected network probe lands in the outer catch, which
applies the failure status update and resolves `false`; a network
probe that reports no connectivity resolves `false` without touching
the status.  `preRetryState` is the state just before the retry loop
starts: prior session auto-disconnected, configuration saved, status
set to connecting. -/
def preRetryState (s : ManagerState) (config : NativeVPNConfig) :
    ManagerState :=
  let s1 := if s.connectionStatus.isConnected then (disconnect s).1 else s
  let s2 := { s1 with
    connectionConfig := some config
    storage := saveConfiguration s1.storage config }
  { s2 with connectionStatus := { s2.connectionStatus with
    isConnected := false
    connectionTime := none } }

/-- The body of `connect` once the pre-connection checks have passed:
save the configuration, set the status to connecting, run the retry
loop, and on success reset the attempt counter and start monitoring. -/
def connectChecked (env : Env) (s : ManagerState)
    (config : NativeVPNConfig) : ManagerState × Bool :=
  let r := connectWithRetryState env config (preRetryState s config) 1
    maxReconnectAttempts
  if r.2 then
    ({ r.1 with reconnectAttempts := 0, monitoring := true }, true)
  else
    (r.1, false)

def connect (env : Env) (s : ManagerState) (config : NativeVPNConfig) :
    ManagerState × Bool :=
  match env.network with
  | .error _ =>
    ({ s with connectionStatus := { s.connectionStatus with
        isConnected := false
        connectionTime := none } }, false)
  | .ok false => (s, false)
  | .ok true => connectChecked env s config

/-- The retry loop never touches the storage cell. -/
theorem connectWithRetryState_storage (env : Env) (config : NativeVPNConfig) :
    ∀ (remaining attempt : Nat) (s : ManagerState),
      (connectWithRetryState env config s attempt remaining).1.storage =
        s.storage := by
  intro remaining
  induction remaining with
  | zero => intro attempt s; rfl
  | succ r ih =>
    intro attempt s
    simp only [connectWithRetryState]
    rcases attemptResult env config attempt with e | b
    · exact ih (attempt + 1) s
    · cases b
      · exact ih (attempt + 1) s
      · rfl

/-- A retry loop that resolves `false` leaves the state unchanged. -/
theorem connectWithRetryState_fail (env : Env) (config : NativeVPNConfig) :
    ∀ (remaining attempt : Nat) (s : ManagerState),
      (connectWithRetryState env config s attempt remaining).2 = false →
      (connectWithRetryState env config s attempt remaining).1 = s := by
  intro remaining
  induction remaining with
  | zero => intro attempt s _; rfl
  | succ r ih =>
    intro attempt s
    simp only [connectWithRetryState]
    rcases attemptResult env config attempt with e | b
    · exact ih (attempt + 1) s
    · cases b
      · exact ih (attempt + 1) s
      · intro h; cases h

end EnhancedNativeVPNManager

namespace EnhancedNativeVPNManager

/-- The state handed to the retry loop always carries the freshly
saved configuration and a connecting status. -/
theorem preRetryState_fields (s : ManagerState) (config : NativeVPNConfig) :
    (preRetryState s config).storage = some (encodeConfig config) ∧
    (preRetryState s config).connectionStatus.isConnected = false ∧
    (preRetryState s config).connectionStatus.connectionTime = none :=
  ⟨rfl, rfl, rfl⟩

/-- After the checked connect body, the storage cell holds the new
configuration, whatever the attempt outcomes. -/
theorem connectChecked_storage (env : Env) (s : ManagerState)
    (config : NativeVPNConfig) :
    (connectChecked env s config).1.storage = some (encodeConfig config) := by
  simp only [connectChecked]
  split
  · show (connectWithRetryState env config (preRetryState s config) 1
      maxReconnectAttempts).1.storage = _
    rw [connectWithRetryState_storage]
    rfl
  · show (connectWithRetryState env config (preRetryState s config) 1
      maxReconnectAttempts).1.storage = _
    rw [connectWithRetryState_storage]
    rfl

/-- A checked connect body that resolves `false` ends with a
disconnected status and no connect timestamp. -/
theorem connectChecked_fail_status (env : Env) (s : ManagerState)
    (config : NativeVPNConfig)
    (h : (connectChecked env s config).2 = false) :
    (connectChecked env s config).1.connectionStatus.isConnected = false ∧
    (connectChecked env s config).1.connectionStatus.connectionTime =
      none := by
  revert h
  simp only [connectChecked]
  split
  · intro h; cases h
  · next hr =>
    intro _
    rw [connectWithRetryState_fail env config _ _ _ (by simpa using hr)]
    exact ⟨rfl, rfl⟩

end EnhancedNativeVPNManager

/-- C6: for every `ConnectionConfig`, saving it and loading it back
yields a value equal to the original, and after `disconnect()`
completes, loading from storage yields no saved config. -/
theorem config_roundtrip_and_cleared_on_disconnect :
    (∀ (store : Option Json) (c : NativeVPNConfig),
      EnhancedNativeVPNManager.loadSavedConfiguration
        (EnhancedNativeVPNManager.saveConfiguration store c) = some c) ∧
    (∀ s : EnhancedNativeVPNManager.ManagerState,
      (EnhancedNativeVPNManager.disconnect s).1.storage = none ∧
      EnhancedNativeVPNManager.loadSavedConfiguration
        (EnhancedNativeVPNManager.disconnect s).1.storage = none) := by
  constructor
  · intro store c
    simp [EnhancedNativeVPNManager.saveConfiguration,
      EnhancedNativeVPNManager.loadSavedConfiguration,
      decodeConfig_encodeConfig]
  · exact fun s => ⟨rfl, rfl⟩

/-- WireGuard credentials used by the concrete lifecycle scenarios. -/
def wgCredentials : Credentials :=
  { privateKey := some "priv"
    publicKey := some "pub"
    presharedKey := none
    certificate := none
    username := none
    password := none
    clientKey := none
    caCertificate := none }

/-- A concrete WireGuard config. -/
def cfgA : NativeVPNConfig :=
  { serverEndpoint := "1.2.3.4:51820"
    protocol := .wireguard
    credentials := wgCredentials
    dns := none
    allowedIPs := none
    mtu := none
    keepAlive := none
    compression := none
    tlsAuth := none }

/-- A second concrete WireGuard config, differing in endpoint. -/
def cfgB : NativeVPNConfig :=
  { cfgA with serverEndpoint := "5.6.7.8:51820" }

/-- Environment whose tunnel driver fails every attempt. -/
def envAllFail : EnhancedNativeVPNManager.Env :=
  { network := .ok true
    isIOS := false
    now := 0
    latency := 0
    driver := fun _ => .ok false }

/-- Manager state with `cfgA` persisted and a disconnected status. -/
def stateWithSavedA : EnhancedNativeVPNManager.ManagerState :=
  { connectionConfig := some cfgA
    connectionStatus := initialNativeStatus
    reconnectAttempts := 0
    monitoring := false
    storage := some (encodeConfig cfgA) }

/-- C7 counterexample: `connect` persists the configuration *before*
the attempt loop, so a connect whose attempts all fail still
overwrites the persisted config: starting with `cfgA` persisted, a
failing `connect` with `cfgB` resolves `false` yet leaves `cfgB` — not
`cfgA` — in storage. -/
theorem failed_connect_overwrites_saved_config_counterexample :
    (EnhancedNativeVPNManager.connect envAllFail stateWithSavedA cfgB).2 =
      false ∧
    EnhancedNativeVPNManager.loadSavedConfiguration stateWithSavedA.storage =
      some cfgA ∧
    EnhancedNativeVPNManager.loadSavedConfiguration
      (EnhancedNativeVPNManager.connect envAllFail stateWithSavedA
        cfgB).1.storage = some cfgB ∧
    cfgB ≠ cfgA := by
  refine ⟨rfl, ?_, ?_, by decide⟩
  · exact decodeConfig_encodeConfig cfgA
  · show EnhancedNativeVPNManager.loadSavedConfiguration
      (EnhancedNativeVPNManager.connect envAllFail stateWithSavedA
        cfgB).1.storage = some cfgB
    rw [show (EnhancedNativeVPNManager.connect envAllFail stateWithSavedA
        cfgB).1.storage = some (encodeConfig cfgB) from
      EnhancedNativeVPNManager.connectChecked_storage envAllFail
        stateWithSavedA cfgB]
    exact decodeConfig_encodeConfig cfgB

/-- C7 (amended): the persisted config follows the last connect call
that passed the network pre-check — independently of connection
success.  A connect that passes the pre-check always overwrites the
persisted config with its own (even if every attempt then fails),
while a connect whose network probe reports no connectivity or
rejects leaves the persisted config unchanged. -/
theorem saved_config_follows_prechecked_connect
    (env : EnhancedNativeVPNManager.Env)
    (s : EnhancedNativeVPNManager.ManagerState)
    (config : NativeVPNConfig) :
    (env.network = Except.ok true →
      (EnhancedNativeVPNManager.connect env s config).1.storage =
        some (encodeConfig config)) ∧
    (env.network ≠ Except.ok true →
      (EnhancedNativeVPNManager.connect env s config).1.storage =
        s.storage) := by
  constructor
  · intro h
    simp only [EnhancedNativeVPNManager.connect, h]
    exact EnhancedNativeVPNManager.connectChecked_storage env s config
  · intro h
    rcases he : env.network with e | b
    · simp only [EnhancedNativeVPNManager.connect, he]
    · cases b
      · simp only [EnhancedNativeVPNManager.connect, he]
      · exact absurd he h

/-- Witness for C7's amended theorem: the always-failing concrete
scenario passes the pre-check, and afterwards storage holds the new
config's serialization. -/
theorem saved_config_follows_prechecked_connect_witness :
    (EnhancedNativeVPNManager.connect envAllFail stateWithSavedA
      cfgB).1.storage = some (encodeConfig cfgB) :=
  (saved_config_follows_prechecked_connect envAllFail stateWithSavedA
    cfgB).1 rfl

/-- Environment whose network probe reports no connectivity. -/
def envNoNetwork : EnhancedNativeVPNManager.Env :=
  { network := .ok false
    isIOS := false
    now := 0
    latency := 0
    driver := fun _ => .ok true }

/-- Manager state whose status is still connected (e.g. a prior
session), with a connect timestamp present. -/
def stateConnected : EnhancedNativeVPNManager.ManagerState :=
  { connectionConfig := some cfgA
    connectionStatus := { initialNativeStatus with
      isConnected := true
      connectionTime := some 5 }
    reconnectAttempts := 0
    monitoring := true
    storage := some (encodeConfig cfgA) }

/-- C10 counterexample: when the network pre-check reports no
connectivity, `connect` returns `false` before any status update, so a
still-connected status survives the failed call: `isConnected` remains
`true` and `connectionTime` remains set — contradicting "on every
failure path it resolves to false with isConnected set to false and
connectionTime absent". -/
theorem connect_failure_keeps_connected_status_counterexample :
    (EnhancedNativeVPNManager.connect envNoNetwork stateConnected cfgB).2 =
      false ∧
    (EnhancedNativeVPNManager.connect envNoNetwork stateConnected
      cfgB).1.connectionStatus.isConnected = true ∧
    (EnhancedNativeVPNManager.connect envNoNetwork stateConnected
      cfgB).1.connectionStatus.connectionTime = some 5 :=
  ⟨rfl, rfl, rfl⟩

/-- C10 (amended): `connect` never rejects — it is a total function
into a boolean.  When the network pre-check reports no connectivity it
resolves `false` with the status left exactly as it was (so a
still-connected status survives); on every other failure path —
rejected network probe, or exhaustion of the attempt loop — it
resolves `false` with `isConnected` false and `connectionTime`
absent. -/
theorem connect_resolves_false_with_cleared_status
    (env : EnhancedNativeVPNManager.Env)
    (s : EnhancedNativeVPNManager.ManagerState)
    (config : NativeVPNConfig) :
    (env.network = Except.ok false →
      (EnhancedNativeVPNManager.connect env s config).2 = false ∧
      (EnhancedNativeVPNManager.connect env s config).1.connectionStatus =
        s.connectionStatus) ∧
    (env.network ≠ Except.ok false →
      (EnhancedNativeVPNManager.connect env s config).2 = false →
      (EnhancedNativeVPNManager.connect env s
          config).1.connectionStatus.isConnected = false ∧
      (EnhancedNativeVPNManager.connect env s
          config).1.connectionStatus.connectionTime = none) := by
  constructor
  · intro h
    simp [EnhancedNativeVPNManager.connect, h]
  · intro hne
    rcases he : env.network with e | b
    · intro _
      simp [EnhancedNativeVPNManager.connect, he]
    · cases b
      · exact absurd he hne
      · intro hf
        simp only [EnhancedNativeVPNManager.connect, he] at hf ⊢
        exact EnhancedNativeVPNManager.connectChecked_fail_status env s
          config hf

/-- Witness for C10's amended theorem at the concrete always-failing
scenario, whose network pre-check passes. -/
theorem connect_resolves_false_with_cleared_status_witness :
    (EnhancedNativeVPNManager.connect envAllFail stateWithSavedA
      cfgB).1.connectionStatus.isConnected = false ∧
    (EnhancedNativeVPNManager.connect envAllFail stateWithSavedA
      cfgB).1.connectionStatus.connectionTime = none :=
  (connect_resolves_false_with_cleared_status envAllFail stateWithSavedA
    cfgB).2 (by simp [envAllFail]) rfl

/-! ## `VPNService` device provisioning and caching (claim C8)

The native-integrated `VPNService.connect` provisions a device via the
backend API the first time a (serverId, protocol) pair is used and
caches it in `currentDevice`; later connects with a matching cached
device skip `createDevice`.  The model counts the `createDevice`,
`getDeviceConfig` and native-driver connect invocations a single
`connect` performs. -/

/-- Endpoint pair of a `VPN_SERVERS` entry. -/
structure VPNServerEndpoints where
  wireguard : String
  openvpn : String
deriving DecidableEq, Repr

/-- One entry of the static `VPN_SERVERS` directory. -/
structure VPNServer where
  id : String
  name : String
  location : String
  region : String
  priority : Nat
  endpoints : VPNServerEndpoints
  flag : String
deriving DecidableEq, Repr
/-- The static `VPN_SERVERS` directory of `lib/constants.ts`. -/
def VPN_SERVERS : List (String × VPNServer) := [
  ("us-east-1", VPNServer.mk "us-east-1" "US East Virginia" "Ashburn, VA, USA"
    "north-america" 100 (VPNServerEndpoints.mk "us-east-1.vpn.andgroupco.com:51820" "us-east-1.vpn.andgroupco.com:443") "🇺🇸"),
  ("us-west-1", VPNServer.mk "us-west-1" "US West California" "San Francisco, CA, USA"
    "north-america" 90 (VPNServerEndpoints.mk "us-west-1.vpn.andgroupco.com:51820" "us-west-1.vpn.andgroupco.com:443") "🇺🇸"),
  ("us-central-1", VPNServer.mk "us-central-1" "US Central Texas" "Dallas, TX, USA"
    "north-america" 85 (VPNServerEndpoints.mk "us-central-1.vpn.andgroupco.com:51820" "us-central-1.vpn.andgroupco.com:443") "🇺🇸"),
  ("ca-central-1", VPNServer.mk "ca-central-1" "Canada Central" "Toronto, ON, Canada"
    "north-america" 80 (VPNServerEndpoints.mk "ca-central-1.vpn.andgroupco.com:51820" "ca-central-1.vpn.andgroupco.com:443") "🇨🇦"),
  ("mx-central-1", VPNServer.mk "mx-central-1" "Mexico Central" "Mexico City, Mexico"
    "north-america" 70 (VPNServerEndpoints.mk "mx-central-1.vpn.andgroupco.com:51820" "mx-central-1.vpn.andgroupco.com:443") "🇲🇽"),
  ("eu-west-1", VPNServer.mk "eu-west-1" "EU West Ireland" "Dublin, Ireland"
    "europe" 100 (VPNServerEndpoints.mk "eu-west-1.vpn.andgroupco.com:51820" "eu-west-1.vpn.andgroupco.com:443") "🇮🇪"),
  ("eu-central-1", VPNServer.mk "eu-central-1" "EU Central Germany" "Frankfurt, Germany"
    "europe" 95 (VPNServerEndpoints.mk "eu-central-1.vpn.andgroupco.com:51820" "eu-central-1.vpn.andgroupco.com:443") "🇩🇪"),
  ("eu-north-1", VPNServer.mk "eu-north-1" "EU North Sweden" "Stockholm, Sweden"
    "europe" 85 (VPNServerEndpoints.mk "eu-north-1.vpn.andgroupco.com:51820" "eu-north-1.vpn.andgroupco.com:443") "🇸🇪"),
  ("eu-south-1", VPNServer.mk "eu-south-1" "EU South Italy" "Milan, Italy"
    "europe" 80 (VPNServerEndpoints.mk "eu-south-1.vpn.andgroupco.com:51820" "eu-south-1.vpn.andgroupco.com:443") "🇮🇹"),
  ("uk-south-1", VPNServer.mk "uk-south-1" "UK London" "London, England"
    "europe" 90 (VPNServerEndpoints.mk "uk-south-1.vpn.andgroupco.com:51820" "uk-south-1.vpn.andgroupco.com:443") "🇬🇧"),
  ("fr", VPNServer.mk "fr" "France Paris" "Paris, France"
    "europe" 88 (VPNServerEndpoints.mk "fr.vpn.andgroupco.com:51820" "fr.vpn.andgroupco.com:443") "🇫🇷"),
  ("nl", VPNServer.mk "nl" "Netherlands Amsterdam" "Amsterdam, Netherlands"
    "europe" 92 (VPNServerEndpoints.mk "nl.vpn.andgroupco.com:51820" "nl.vpn.andgroupco.com:443") "🇳🇱"),
  ("ch", VPNServer.mk "ch" "Switzerland Zurich" "Zurich, Switzerland"
    "europe" 87 (VPNServerEndpoints.mk "ch.vpn.andgroupco.com:51820" "ch.vpn.andgroupco.com:443") "🇨🇭"),
  ("fi", VPNServer.mk "fi" "Finland Helsinki" "Helsinki, Finland"
    "europe" 83 (VPNServerEndpoints.mk "fi.vpn.andgroupco.com:51820" "fi.vpn.andgroupco.com:443") "🇫🇮"),
  ("ap-southeast-1", VPNServer.mk "ap-southeast-1" "AP Southeast Singapore" "Singapore"
    "asia-pacific" 100 (VPNServerEndpoints.mk "ap-southeast-1.vpn.andgroupco.com:51820" "ap-southeast-1.vpn.andgroupco.com:443") "🇸🇬"),
  ("ap-northeast-1", VPNServer.mk "ap-northeast-1" "AP Northeast Japan" "Tokyo, Japan"
    "asia-pacific" 95 (VPNServerEndpoints.mk "ap-northeast-1.vpn.andgroupco.com:51820" "ap-northeast-1.vpn.andgroupco.com:443") "🇯🇵"),
  ("ap-south-1", VPNServer.mk "ap-south-1" "AP South India" "Mumbai, India"
    "asia-pacific" 85 (VPNServerEndpoints.mk "ap-south-1.vpn.andgroupco.com:51820" "ap-south-1.vpn.andgroupco.com:443") "🇮🇳"),
  ("ap-southeast-2", VPNServer.mk "ap-southeast-2" "AP Southeast Australia" "Sydney, Australia"
    "asia-pacific" 80 (VPNServerEndpoints.mk "ap-southeast-2.vpn.andgroupco.com:51820" "ap-southeast-2.vpn.andgroupco.com:443") "🇦🇺"),
  ("ap-east-1", VPNServer.mk "ap-east-1" "AP East Hong Kong" "Hong Kong"
    "asia-pacific" 90 (VPNServerEndpoints.mk "ap-east-1.vpn.andgroupco.com:51820" "ap-east-1.vpn.andgroupco.com:443") "🇭🇰"),
  ("kr", VPNServer.mk "kr" "South Korea Seoul" "Seoul, South Korea"
    "asia-pacific" 88 (VPNServerEndpoints.mk "kr.vpn.andgroupco.com:51820" "kr.vpn.andgroupco.com:443") "🇰🇷"),
  ("my", VPNServer.mk "my" "Malaysia Kuala Lumpur" "Kuala Lumpur, Malaysia"
    "asia-pacific" 82 (VPNServerEndpoints.mk "my.vpn.andgroupco.com:51820" "my.vpn.andgroupco.com:443") "🇲🇾"),
  ("cn", VPNServer.mk "cn" "China Beijing" "Beijing, China"
    "asia-pacific" 93 (VPNServerEndpoints.mk "cn.vpn.andgroupco.com:51820" "cn.vpn.andgroupco.com:443") "🇨🇳"),
  ("sa-east-1", VPNServer.mk "sa-east-1" "SA East Brazil" "São Paulo, Brazil"
    "south-america" 90 (VPNServerEndpoints.mk "sa-east-1.vpn.andgroupco.com:51820" "sa-east-1.vpn.andgroupco.com:443") "🇧🇷"),
  ("af-south-1", VPNServer.mk "af-south-1" "AF South Africa" "Cape Town, South Africa"
    "africa" 75 (VPNServerEndpoints.mk "af-south-1.vpn.andgroupco.com:51820" "af-south-1.vpn.andgroupco.com:443") "🇿🇦"),
  ("af-west-1", VPNServer.mk "af-west-1" "AF West Liberia" "Monrovia, Liberia"
    "africa" 85 (VPNServerEndpoints.mk "af-west-1.vpn.andgroupco.com:51820" "af-west-1.vpn.andgroupco.com:443") "🇱🇷"),
  ("ke", VPNServer.mk "ke" "Kenya Nairobi" "Nairobi, Kenya"
    "africa" 80 (VPNServerEndpoints.mk "ke.vpn.andgroupco.com:51820" "ke.vpn.andgroupco.com:443") "🇰🇪"),
  ("me-south-1", VPNServer.mk "me-south-1" "ME South UAE" "Dubai, UAE"
    "middle-east" 80 (VPNServerEndpoints.mk "me-south-1.vpn.andgroupco.com:51820" "me-south-1.vpn.andgroupco.com:443") "🇦🇪"),
  ("oc-east-1", VPNServer.mk "oc-east-1" "OC East New Zealand" "Auckland, New Zealand"
    "oceania" 70 (VPNServerEndpoints.mk "oc-east-1.vpn.andgroupco.com:51820" "oc-east-1.vpn.andgroupco.com:443") "🇳🇿"),
  ("ru-west-1", VPNServer.mk "ru-west-1" "RU West Russia" "Moscow, Russia"
    "eastern-europe" 75 (VPNServerEndpoints.mk "ru-west-1.vpn.andgroupco.com:51820" "ru-west-1.vpn.andgroupco.com:443") "��")]

/-- `VPN_SERVERS[serverId]`. -/
def lookupServer (serverId : String) : Option VPNServer :=
  VPN_SERVERS.lookup serverId

/-- `server.endpoints[protocol.toLowerCase()]`. -/
def endpointFor (server : VPNServer) : VPNProtocol → String
  | .WIREGUARD => server.endpoints.wireguard
  | .OPENVPN => server.endpoints.openvpn

/-- `validateServerEndpoint`: the endpoint must exist and its port
must be one of the accepted ports for the protocol (51820/51821 for
WireGuard, 443/1194 for OpenVPN).  The `VPN_CONFIG` presence guard
always passes for the two enum protocols, since `VPN_CONFIG` has both
keys. -/
def validateServerEndpoint (server : VPNServer)
    (protocol : VPNProtocol) : Bool :=
  let endpoint := endpointFor server protocol
  if endpoint = "" then false
  else
    let port := (endpoint.splitOn ":").get? 1
    match protocol with
    | .WIREGUARD => port == some "51820" || port == some "51821"
    | .OPENVPN => port == some "443" || port == some "1194"

/-- Device lifecycle status. -/
inductive DeviceStatus
  | ACTIVE
  | INACTIVE
  | BLOCKED
deriving DecidableEq, Repr

/-- `VPNDevice` as cached in `currentDevice`. -/
structure VPNDevice where
  id : String
  name : String
  publicKey : String
  privateKey : String
  ipAddress : String
  serverId : String
  protocol : VPNProtocol
  status : DeviceStatus
  createdAt : String
  updatedAt : String
deriving DecidableEq, Repr

/-- The fields of a successful `create-multi-protocol` API response
that `createDevice` reads. -/
structure DeviceData where
  id : String
  name : String
  publicKey : String
  privateKey : String
  ipAddress : String
  createdAt : String
  updatedAt : String
deriving DecidableEq, Repr

/-- The fields of a successful `config-json` API response that
`getDeviceConfig` reads. -/
structure ConfigData where
  serverId : String
  protocol : VPNProtocol
  privateKey : String
  publicKey : String
  endpoint : String
  allowedIPs : Option (List String)
  dns : Option (List String)
deriving DecidableEq, Repr

namespace VPNService

/-- Mutable fields of `VPNService` used by the connect path. -/
structure ServiceState where
  currentDevice : Option VPNDevice
  connectionStatus : VPNStatus
deriving DecidableEq, Repr

/-- External outcomes consumed by one `VPNService.connect` call: the
device-creation POST, the config-fetch GET, the native driver connect
(`.error` models a rejected call / non-ok HTTP response), and the
wall-clock strings. -/
structure ServiceEnv where
  createDeviceResp : Except Unit DeviceData
  getConfigResp : Except Unit ConfigData
  nativeConnect : Except Unit Bool
  nowName : String
  nowIso : Nat

/-- Number of `createDevice`, `getDeviceConfig` and native connect
invocations one `connect` call performs. -/
structure CallCounts where
  createDevice : Nat
  getDeviceConfig : Nat
  nativeConnect : Nat
deriving DecidableEq, Repr

/-- `VPNService.createDevice`: resolve the server, POST the creation
request, and cache the resulting device in `currentDevice` with the
requested (serverId, protocol) and status `INACTIVE`.  Failures
rethrow without touching the cache. -/
def createDevice (env : ServiceEnv) (s : ServiceState) (name : String)
    (serverId : String) (protocol : VPNProtocol) :
    ServiceState × Except Unit VPNDevice :=
  match lookupServer serverId with
  | none => (s, .error ())
  | some _server =>
    match env.createDeviceResp with
    | .error _ => (s, .error ())
    | .ok d =>
      let device : VPNDevice :=
        { id := d.id
          name := d.name
          publicKey := d.publicKey
          privateKey := d.privateKey
          ipAddress := d.ipAddress
          serverId := serverId
          protocol := protocol
          status := .INACTIVE
          createdAt := d.createdAt
          updatedAt := d.updatedAt }
      ({ s with currentDevice := some device }, .ok device)

/-- Set the status enum to `ERROR` (the catch-block
`updateStatus({ status: "ERROR" })`). -/
def errState (s : ServiceState) : ServiceState :=
  { s with connectionStatus :=
    { s.connectionStatus with status := .ERROR } }

/-- `VPNService.connect` of the native-integrated variant, returning
the final state, the number of API/driver calls performed, and whether
the promise resolved or rejected.  Mirrors the source order: status →
CONNECTING, server lookup, conditional `createDevice` (only when no
cached device matches the (serverId, protocol) pair), `getDeviceConfig`,
endpoint validation, native connect, status → ACTIVE; every failure
sets status `ERROR` and rethrows. -/
def connectService (env : ServiceEnv) (s : ServiceState)
    (serverId : String) (protocol : VPNProtocol)
    (deviceName : Option String) :
    ServiceState × CallCounts × Except Unit Unit :=
  let s1 := { s with connectionStatus := { s.connectionStatus with
    status := .CONNECTING
    serverId := some serverId
    protocol := some protocol } }
  match lookupServer serverId with
  | none => (errState s1, ⟨0, 0, 0⟩, .error ())
  | some server =>
    let needCreate : Bool :=
      match s1.currentDevice with
      | none => true
      | some d => decide ¬(d.serverId = serverId ∧ d.protocol = protocol)
    let cCount : Nat := if needCreate then 1 else 0
    let afterCreate : ServiceState × Except Unit Unit :=
      if needCreate then
        let r := createDevice env s1
          (deviceName.getD ("AndVPN-Mobile-" ++ env.nowName))
          serverId protocol
        (r.1, r.2.map fun _ => ())
      else (s1, .ok ())
    match afterCreate.2 with
    | .error _ => (errState afterCreate.1, ⟨cCount, 0, 0⟩, .error ())
    | .ok _ =>
      match afterCreate.1.currentDevice with
      | none => (errState afterCreate.1, ⟨cCount, 0, 0⟩, .error ())
      | some _device =>
        match env.getConfigResp with
        | .error _ => (errState afterCreate.1, ⟨cCount, 1, 0⟩, .error ())
        | .ok _config =>
          if validateServerEndpoint server protocol then
            match env.nativeConnect with
            | .error _ =>
              (errState afterCreate.1, ⟨cCount, 1, 1⟩, .error ())
            | .ok false =>
              (errState afterCreate.1, ⟨cCount, 1, 1⟩, .error ())
            | .ok true =>
              ({ afterCreate.1 with connectionStatus :=
                  { afterCreate.1.connectionStatus with
                    status := .ACTIVE
                    serverId := some serverId
                    protocol := some protocol
                    connectedAt := some env.nowIso } },
                ⟨cCount, 1, 1⟩, .ok ())
          else (errState afterCreate.1, ⟨cCount, 1, 0⟩, .error ())

end VPNService

namespace VPNService

/-- A first connect with no cached device performs exactly one
`createDevice` call and one `getDeviceConfig` call (whatever the later
outcomes), and leaves the freshly provisioned device cached under the
requested (serverId, protocol) pair. -/
theorem connectService_fresh (env : ServiceEnv) (s : ServiceState)
    (serverId : String) (protocol : VPNProtocol) (nm : Option String)
    (srv : VPNServer) (d : DeviceData)
    (h0 : s.currentDevice = none)
    (hsrv : lookupServer serverId = some srv)
    (hc : env.createDeviceResp = Except.ok d) :
    ((connectService env s serverId protocol nm).2.1.createDevice = 1 ∧
      (connectService env s serverId protocol nm).2.1.getDeviceConfig = 1) ∧
    (connectService env s serverId protocol nm).1.currentDevice =
      some { id := d.id
             name := d.name
             publicKey := d.publicKey
             privateKey := d.privateKey
             ipAddress := d.ipAddress
             serverId := serverId
             protocol := protocol
             status := .INACTIVE
             createdAt := d.createdAt
             updatedAt := d.updatedAt } := by
  simp only [connectService, hsrv, h0, createDevice, hc, Except.map]
  rcases env.getConfigResp with e | cfg
  · simp [errState]
  · by_cases hv : validateServerEndpoint srv protocol
    · simp only [hv, if_true]
      rcases env.nativeConnect with e | b
      · simp [errState]
      · cases b <;> simp [errState]
    · simp [hv, errState]

/-- A connect whose cached device matches the requested
(serverId, protocol) pair performs zero `createDevice` calls. -/
theorem connectService_cached (env : ServiceEnv) (s : ServiceState)
    (serverId : String) (protocol : VPNProtocol) (nm : Option String)
    (srv : VPNServer) (dev : VPNDevice)
    (h0 : s.currentDevice = some dev)
    (hds : dev.serverId = serverId) (hdp : dev.protocol = protocol)
    (hsrv : lookupServer serverId = some srv) :
    (connectService env s serverId protocol nm).2.1.createDevice = 0 := by
  simp only [connectService, hsrv, h0, hds, hdp, Except.map,
    eq_self_iff_true, and_self, not_true, decide_False, Bool.false_eq_true,
    if_false]
  rcases env.getConfigResp with e | cfg
  · simp [errState]
  · by_cases hv : validateServerEndpoint srv protocol
    · simp only [hv, if_true]
      rcases env.nativeConnect with e | b
      · simp [errState]
      · cases b <;> simp [errState]
    · simp [hv, errState]

end VPNService

/-- C8: a first `connect(serverId, protocol)` with no cached device
performs exactly one `createDevice` call and one `getDeviceConfig`
call, and a second `connect` for the same (serverId, protocol) pair in
the same session — now finding the cached matching device — performs
zero `createDevice` calls. -/
theorem first_connect_provisions_once_second_uses_cache
    (env env2 : VPNService.ServiceEnv) (s : VPNService.ServiceState)
    (serverId : String) (protocol : VPNProtocol)
    (name1 name2 : Option String) (srv : VPNServer) (d : DeviceData)
    (h0 : s.currentDevice = none)
    (hsrv : lookupServer serverId = some srv)
    (hc : env.createDeviceResp = Except.ok d) :
    (VPNService.connectService env s serverId protocol
      name1).2.1.createDevice = 1 ∧
    (VPNService.connectService env s serverId protocol
      name1).2.1.getDeviceConfig = 1 ∧
    (VPNService.connectService env2
      (VPNService.connectService env s serverId protocol name1).1
      serverId protocol name2).2.1.createDevice = 0 := by
  obtain ⟨⟨h1, h2⟩, hdev⟩ :=
    VPNService.connectService_fresh env s serverId protocol name1 srv d
      h0 hsrv hc
  exact ⟨h1, h2,
    VPNService.connectService_cached env2 _ serverId protocol name2 srv _
      hdev rfl rfl hsrv⟩

/-- The `us-east-1` entry of `VPN_SERVERS`. -/
def c8Server : VPNServer :=
  VPNServer.mk "us-east-1" "US East Virginia" "Ashburn, VA, USA"
    "north-america" 100
    (VPNServerEndpoints.mk "us-east-1.vpn.andgroupco.com:51820"
      "us-east-1.vpn.andgroupco.com:443") "🇺🇸"

/-- Happy-path environment for the C8 scenario. -/
def c8Env : VPNService.ServiceEnv :=
  { createDeviceResp := .ok
      ⟨"dev-1", "AndVPN-Mobile-0", "pub", "priv", "10.8.0.2", "t0", "t0"⟩
    getConfigResp := .ok
      ⟨"us-east-1", .WIREGUARD, "priv", "pub",
        "us-east-1.vpn.andgroupco.com:51820", none, none⟩
    nativeConnect := .ok true
    nowName := "0"
    nowIso := 0 }

/-- Fresh service state for the C8 scenario. -/
def c8State : VPNService.ServiceState :=
  ⟨none, VPNService.initialStatus⟩

/-- Witness for C8 at the concrete `("us-east-1", WIREGUARD)`
scenario. -/
theorem first_connect_provisions_once_second_uses_cache_witness :
    (VPNService.connectService c8Env c8State "us-east-1"
      VPNProtocol.WIREGUARD none).2.1.createDevice = 1 ∧
    (VPNService.connectService c8Env c8State "us-east-1"
      VPNProtocol.WIREGUARD none).2.1.getDeviceConfig = 1 ∧
    (VPNService.connectService c8Env
      (VPNService.connectService c8Env c8State "us-east-1"
        VPNProtocol.WIREGUARD none).1
      "us-east-1" VPNProtocol.WIREGUARD none).2.1.createDevice = 0 :=
  first_connect_provisions_once_second_uses_cache c8Env c8Env c8State
    "us-east-1" VPNProtocol.WIREGUARD none none c8Server
    ⟨"dev-1", "AndVPN-Mobile-0", "pub", "priv", "10.8.0.2", "t0", "t0"⟩
    rfl rfl rfl

/-! ## Snapshot vs. live-reference reads (claim C9)

JavaScript objects are heap references.  The enhanced manager's
`getStatus()` returns `{ ...this.connectionStatus }` — a freshly
allocated shallow copy — while `VPNService.getStatus()` returns
`this.connectionStatus` itself.  Object identity is modelled by a
heap of status objects addressed by numeric references; a reader
"mutating" the value it was handed is a heap write through the
returned reference. -/

/-- A heap of `α`-objects: a store and the next fresh reference. -/
structure Heap (α : Type) where
  mem : Nat → α
  next : Nat

/-- Dereference. -/
def Heap.read {α : Type} (h : Heap α) (r : Nat) : α :=
  h.mem r

/-- In-place mutation of the object behind a reference. -/
def Heap.write {α : Type} (h : Heap α) (r : Nat) (v : α) : Heap α :=
  { h with mem := fun i => if i = r then v else h.mem i }

/-- Allocate a fresh object, returning its reference. -/
def Heap.alloc {α : Type} (h : Heap α) (v : α) : Heap α × Nat :=
  ({ mem := fun i => if i = h.next then v else h.mem i
     next := h.next + 1 }, h.next)

namespace EnhancedNativeVPNManager

/-- `getStatus(): return { ...this.connectionStatus }` — allocate a
shallow copy of the manager's status object and return the fresh
reference. -/
def getStatusRef {α : Type} (h : Heap α) (mgr : Nat) : Heap α × Nat :=
  Heap.alloc h (Heap.read h mgr)

end EnhancedNativeVPNManager

namespace VPNService

/-- `getStatus(): return this.connectionStatus` — the live internal
reference is handed out unchanged. -/
def getStatusRef {α : Type} (h : Heap α) (mgr : Nat) : Heap α × Nat :=
  (h, mgr)

end VPNService

/-- Heap whose reference 0 is the `VPNService` internal status. -/
def c9ServiceHeap : Heap VPNStatus :=
  ⟨fun _ => VPNService.initialStatus, 1⟩

/-- C9 counterexample: `VPNService.getStatus` returns the live
internal reference (reference 0 itself), so a reader writing a
different status through the returned reference changes the
orchestrator's internal status object — readers do not always receive
copies. -/
theorem reader_mutation_corrupts_internal_status_counterexample :
    (VPNService.getStatusRef c9ServiceHeap 0).2 = 0 ∧
    Heap.read
      (Heap.write (VPNService.getStatusRef c9ServiceHeap 0).1
        (VPNService.getStatusRef c9ServiceHeap 0).2 activeStatusWithBytes)
      0 = activeStatusWithBytes ∧
    activeStatusWithBytes ≠ VPNService.initialStatus :=
  ⟨rfl, rfl, by decide⟩

/-- C9 (amended): the enhanced manager's `getStatus` hands out a fresh
snapshot: the returned reference differs from the internal one, it
reads as the current internal status, and any mutation a reader
performs through it leaves the internal status object unchanged.  The
`VPNService` variants' `getStatus`, by contrast, return the live
internal reference, through which reader mutation does corrupt the
internal status (see the counterexample). -/
theorem getStatus_snapshot_isolated (h : Heap NativeVPNStatus)
    (mgr : Nat) (v : NativeVPNStatus) (hvalid : mgr < h.next) :
    (EnhancedNativeVPNManager.getStatusRef h mgr).2 ≠ mgr ∧
    Heap.read (EnhancedNativeVPNManager.getStatusRef h mgr).1
      (EnhancedNativeVPNManager.getStatusRef h mgr).2 = Heap.read h mgr ∧
    Heap.read
      (Heap.write (EnhancedNativeVPNManager.getStatusRef h mgr).1
        (EnhancedNativeVPNManager.getStatusRef h mgr).2 v) mgr =
      Heap.read h mgr := by
  refine ⟨fun he => absurd (he ▸ hvalid) (lt_irrefl _), ?_, ?_⟩
  · simp [EnhancedNativeVPNManager.getStatusRef, Heap.alloc, Heap.read]
  · have hne : mgr ≠ h.next := Nat.ne_of_lt hvalid
    simp [EnhancedNativeVPNManager.getStatusRef, Heap.alloc, Heap.read,
      Heap.write, hne]

/-- Heap whose reference 0 is the enhanced manager's internal status. -/
def c9NativeHeap : Heap NativeVPNStatus :=
  ⟨fun _ => initialNativeStatus, 1⟩

/-- A connected native status distinct from the initial one, used as
the value a mutating reader writes. -/
def activeNativeStatus : NativeVPNStatus :=
  { initialNativeStatus with
    isConnected := true
    connectionTime := some 5
    bytesReceived := 9
    bytesSent := 4 }

/-- Witness for C9's amended theorem at a concrete heap: mutating the
snapshot returned by the enhanced `getStatus` leaves the internal
status unchanged. -/
theorem getStatus_snapshot_isolated_witness :
    (EnhancedNativeVPNManager.getStatusRef c9NativeHeap 0).2 ≠ 0 ∧
    Heap.read (EnhancedNativeVPNManager.getStatusRef c9NativeHeap 0).1
      (EnhancedNativeVPNManager.getStatusRef c9NativeHeap 0).2 =
      Heap.read c9NativeHeap 0 ∧
    Heap.read
      (Heap.write (EnhancedNativeVPNManager.getStatusRef c9NativeHeap 0).1
        (EnhancedNativeVPNManager.getStatusRef c9NativeHeap 0).2
        activeNativeStatus) 0 =
      Heap.read c9NativeHeap 0 :=
  getStatus_snapshot_isolated c9NativeHeap 0 activeNativeStatus
    (by decide)

